import Mathlib

/-!
# A shallow embedding of `jsonlog` (src/jsonlog.go)

The repository is a single-file Go package: an asynchronous, rotating JSON
log writer.  A handle `L` owns a bounded channel `logChan` (capacity 1000),
a close channel, and the writer state (`file`, buffered/compressing writer
`out`, JSON `encoder`); a single background goroutine started by `New`
selects among record arrival, a 2-second flush tick, a rotation deadline,
and the close signal.

This file models, directly from the source:
  * the destination-path computation of `L.switchFile` (lines 130-138) and
    the `fileType += ".gz"` adjustment in `New` (lines 52-54);
  * the rotation-timer durations of the worker goroutine (lines 67-84 for
    the initial timer, 107-112 for re-arming);
  * a small filesystem model for `os.Stat`/`os.Mkdir`/`os.OpenFile` as the
    code uses them, and the full `switchFile` over it (lines 123-175,
    uncompressed branch);
  * the worker select loop as a step function on an explicit state
    (lines 95-116), the deferred shutdown cleanup (lines 88-93), and the
    public `Log` / `Close` operations (lines 178-186);
  * the compressed writer stack `gzip.NewWriterLevel(bufio.NewWriter(file), 9)`
    (line 168) with the flush behaviour of the Go standard library, used to
    settle the compressed round-trip claim.

External collaborators (the JSON encoder, gzip codec, OS) are modelled at
the granularity the spec fixes for them: one delimited unit per record, a
stream transform that buffers until flushed and needs a final footer, and a
filesystem with create/append/write/close capabilities.
-/

namespace Jsonlog

/-- `SwitchMode` from jsonlog.go (lines 14-19): rotation granularity. -/
inductive SwitchMode where
  | byDay
  | byHours
deriving DecidableEq, Repr

/-- Go's two-digit zero-padded formatting `fmt.Sprintf("%02d", n)`
(jsonlog.go lines 134, 137), for the non-negative values the code feeds it. -/
def pad2 (n : Nat) : String :=
  if n < 10 then "0" ++ toString n else toString n

/-- Go's four-digit year field of `now.Format("2006-01")` /
`now.Format("2006-01-02")` (jsonlog.go lines 133, 136), for years below
10000 as the code will only ever see. -/
def pad4 (n : Nat) : String :=
  if n < 10 then "000" ++ toString n
  else if n < 100 then "00" ++ toString n
  else if n < 1000 then "0" ++ toString n
  else toString n

/-- A wall-clock instant as the calendar fields the Go code reads off
`time.Time` (`Year()`, `Month()`, `Day()`, `Hour()`). -/
structure DateTime where
  year : Nat
  month : Nat
  day : Nat
  hour : Nat
deriving DecidableEq, Repr

/-- Go's `now.Format("2006-01")`: `YYYY-MM`. -/
def formatYearMonth (dt : DateTime) : String :=
  pad4 dt.year ++ "-" ++ pad2 dt.month

/-- Go's `now.Format("2006-01-02")`: `YYYY-MM-DD`. -/
def formatYearMonthDay (dt : DateTime) : String :=
  formatYearMonth dt ++ "-" ++ pad2 dt.day

/-- The directory-name / file-name pair computed at the top of
`L.switchFile` (jsonlog.go lines 123-138) from the base directory, the
switch mode, the (already compression-adjusted) file type and the current
instant. -/
def switchFilePaths (dir : String) (switchMode : SwitchMode) (fileType : String)
    (now : DateTime) : String × String :=
  match switchMode with
  | .byDay =>
      let dirName := dir ++ "/" ++ formatYearMonth now ++ "/"
      (dirName, dirName ++ pad2 now.day ++ fileType)
  | .byHours =>
      let dirName := dir ++ "/" ++ formatYearMonthDay now ++ "/"
      (dirName, dirName ++ pad2 now.hour ++ fileType)

/-- The `fileType += ".gz"` adjustment in `New` (jsonlog.go lines 52-54),
applied before the first `switchFile` and captured by the goroutine. -/
def effectiveFileType (fileType : String) (compress : Bool) : String :=
  if compress then fileType ++ ".gz" else fileType

/-! ## Rotation timers (jsonlog.go lines 67-84 and 107-112)

Absolute time is modelled as seconds in the process's fixed local offset;
`time.Date(now.Year(), now.Month(), now.Day(), 0, 0, 0, 0, now.Location())`
is then truncation to the enclosing day, and the analogous expression with
`now.Hour()` truncation to the enclosing hour. -/

def secondsPerHour : Nat := 3600

def secondsPerDay : Nat := 86400

/-- Midnight of the day containing `now`. -/
def startOfDay (now : Nat) : Nat := now - now % secondsPerDay

/-- Top of the hour containing `now`. -/
def startOfHour (now : Nat) : Nat := now - now % secondsPerHour

/-- The duration (seconds) of the first `fileTimer`
(jsonlog.go lines 71-84): midnight-of-today plus 24h minus now for
`SWITCH_BY_DAY`, top-of-this-hour plus 1h minus now for `SWITCH_BY_HOURS`. -/
def initialTimerDuration (switchMode : SwitchMode) (now : Nat) : Int :=
  match switchMode with
  | .byDay => (startOfDay now + secondsPerDay : Int) - now
  | .byHours => (startOfHour now + secondsPerHour : Int) - now

/-- The duration the timer is re-armed with after a rotation fires
(jsonlog.go lines 107-112): a full day or a full hour. -/
def rearmDuration (switchMode : SwitchMode) : Nat :=
  match switchMode with
  | .byDay => secondsPerDay
  | .byHours => secondsPerHour

/-- The timer period the policy aligns to. -/
def period (switchMode : SwitchMode) : Nat :=
  match switchMode with
  | .byDay => secondsPerDay
  | .byHours => secondsPerHour

/-- Spec-side notion: the next policy-aligned boundary strictly after
`now` (next midnight for day rotation, next top-of-hour for hour
rotation): the least multiple of the period exceeding `now`. -/
def nextBoundaryAfter (p : Nat) (now : Nat) : Nat := (now / p + 1) * p

/-! ## Filesystem model

The code uses exactly: `os.Stat` on a path, `os.Mkdir` (create one
directory), and `os.OpenFile(name, O_WRONLY|O_CREATE|O_APPEND, 0755)`.
A file's contents are the list of delimited units (JSON lines) written to
it; `allowCreate` is the ambient permission to create new entries, so that
mid-run creation failures (disk/permission errors) can be expressed. -/

/-- The open flags of Go's `os` package that matter here. -/
inductive OpenFlag where
  | O_WRONLY
  | O_CREATE
  | O_APPEND
  | O_TRUNC
deriving DecidableEq, Repr

/-- The flag set passed by `L.switchFile` (jsonlog.go line 152):
`os.O_WRONLY|os.O_CREATE|os.O_APPEND`. -/
def switchFileOpenFlags : List OpenFlag :=
  [OpenFlag.O_WRONLY, OpenFlag.O_CREATE, OpenFlag.O_APPEND]

structure FS where
  dirs : List String
  files : List (String × List String)
  allowCreate : Bool
deriving DecidableEq, Repr

/-- Look a file up by name. -/
def fsLookup (files : List (String × List String)) (name : String) :
    Option (List String) :=
  match files with
  | [] => none
  | (n, c) :: rest => if n = name then some c else fsLookup rest name

/-- Replace the contents bound to `name` (first binding wins, as in
`fsLookup`); appends a fresh binding when absent. -/
def fsStore (files : List (String × List String)) (name : String)
    (contents : List String) : List (String × List String) :=
  match files with
  | [] => [(name, contents)]
  | (n, c) :: rest =>
      if n = name then (n, contents) :: rest else (n, c) :: fsStore rest name contents

/-- Append delimited units to an existing file's contents: the effect of a
buffered-writer flush on a file opened with `O_APPEND`.  Flushing an empty
buffer writes nothing. -/
def fsAppendLines (fs : FS) (name : String) (lines : List String) : FS :=
  match lines with
  | [] => fs
  | _ =>
      match fsLookup fs.files name with
      | some c => { fs with files := fsStore fs.files name (c ++ lines) }
      | none => { fs with files := fsStore fs.files name lines }

/-- `os.Mkdir(d, 0755)`, called only after `os.Stat` reported the
directory absent. -/
def fsMkdir (fs : FS) (d : String) : Except String FS :=
  if fs.allowCreate then Except.ok { fs with dirs := d :: fs.dirs }
  else Except.error ("mkdir " ++ d ++ ": permission denied")

/-- The stat-then-mkdir pattern of `New` (lines 42-50) and `switchFile`
(lines 141-149): tolerate an existing directory, create it otherwise. -/
def fsEnsureDir (fs : FS) (d : String) : Except String FS :=
  if d ∈ fs.dirs then Except.ok fs else fsMkdir fs d

/-- `os.OpenFile(name, flags, 0755)`.  With `O_TRUNC` the existing
contents are discarded, otherwise kept (`O_APPEND` writes go to the end);
with `O_CREATE` a missing file is created empty, subject to
`allowCreate`. -/
def fsOpenFile (fs : FS) (name : String) (flags : List OpenFlag) :
    Except String FS :=
  match fsLookup fs.files name with
  | some c =>
      if OpenFlag.O_TRUNC ∈ flags then
        Except.ok { fs with files := fsStore fs.files name [] }
      else
        Except.ok { fs with files := fsStore fs.files name c }
  | none =>
      if OpenFlag.O_CREATE ∈ flags then
        if fs.allowCreate then
          Except.ok { fs with files := fsStore fs.files name [] }
        else Except.error ("open " ++ name ++ ": permission denied")
      else Except.error ("open " ++ name ++ ": no such file")

/-! ## Worker state and the select loop (jsonlog.go lines 95-116)

The state gathers what the goroutine owns: the filesystem, the fields of
`L` it touches (`logChan` buffer, `file`, the uncompressed `out` buffer,
`encoder` is a function of `out`), whether `closeChan` has been closed,
and the diagnostic sink fed by `log.Println`.  The compressed writer stack
(line 168) is modelled separately below; this state models the
`bufio.NewWriter(logger.file)` branch (line 170).

A record is modelled together with the outcome `json.Encoder.Encode`
produces for it — the encoder is the pluggable serializer of the spec:
either the delimited unit it appends to `out`, or an error. -/

instance {ε α : Type} [DecidableEq ε] [DecidableEq α] :
    DecidableEq (Except ε α) := fun a b =>
  match a, b with
  | Except.ok x, Except.ok y =>
      if h : x = y then isTrue (by rw [h]) else isFalse (by simp [h])
  | Except.error x, Except.error y =>
      if h : x = y then isTrue (by rw [h]) else isFalse (by simp [h])
  | Except.ok _, Except.error _ => isFalse (by simp)
  | Except.error _, Except.ok _ => isFalse (by simp)

structure Rec where
  encodeResult : Except String String
deriving DecidableEq, Repr

/-- A record whose serialization succeeds, producing the line `l`. -/
def okRec (l : String) : Rec := ⟨Except.ok l⟩

/-- Capacity of `logChan` (jsonlog.go line 59: `make(chan M, 1000)`). -/
def logChanCapacity : Nat := 1000

structure WorkerState where
  fs : FS
  dir : String
  /-- `logger.file`: the currently open destination, `none` only before
  the first `switchFile` inside `New`. -/
  fileName : Option String
  /-- the `bufio.Writer` buffer of `logger.out`. -/
  buf : List String
  /-- buffered contents of `logger.logChan`. -/
  queue : List Rec
  /-- whether `close(logger.closeChan)` has happened. -/
  closeChanClosed : Bool
  /-- lines printed by `log.Println` (the diagnostic sink). -/
  diagnostics : List String
  /-- the wall clock, read by `switchFile`. -/
  now : DateTime
deriving DecidableEq, Repr

/-- `logger.out.Flush()` for the uncompressed writer: move the buffer's
bytes into the open file. -/
def flushState (s : WorkerState) : WorkerState :=
  match s.fileName with
  | some n => { s with fs := fsAppendLines s.fs n s.buf, buf := [] }
  | none => s

/-- `L.switchFile` (jsonlog.go lines 123-175), uncompressed branch: name
the bucket's directory and file, ensure the directory, open the file for
append-or-create, then flush and close the previous writer (when one is
live) and swap the fresh writer in.  `bufio` flush and `os.File.Close`
are modelled as infallible; the fallible steps are directory and file
creation, exactly the errors the code returns. -/
def switchFile (switchMode : SwitchMode) (fileType : String) (s : WorkerState) :
    Except String WorkerState :=
  let p := switchFilePaths s.dir switchMode fileType s.now
  match fsEnsureDir s.fs p.1 with
  | Except.error e => Except.error e
  | Except.ok fs1 =>
      match fsOpenFile fs1 p.2 switchFileOpenFlags with
      | Except.error e => Except.error e
      | Except.ok fs2 =>
          let s1 := flushState { s with fs := fs2 }
          Except.ok { s1 with fileName := some p.2, buf := [] }

/-- The four event sources of the worker's `select` (lines 96-115).  The
`select` statement services whichever case is ready; a schedule of events
is one resolution of that nondeterminism. -/
inductive Event where
  | record
  | flushTick
  | rotationDeadline
  | closeSignal
deriving DecidableEq, Repr

/-- What one `select` iteration does. -/
inductive StepResult where
  /-- the loop continues with the new state. -/
  | running (s : WorkerState)
  /-- `return` was executed (close signal): the deferred cleanup runs next. -/
  | stopped (s : WorkerState)
  /-- `panic(err)` was executed (rotation failure). -/
  | panicked (e : String) (s : WorkerState)
deriving DecidableEq, Repr

/-- One iteration of the worker loop (jsonlog.go lines 95-116) servicing
the given ready event.  A `record` event with an empty queue corresponds
to a channel receive that is not ready — the `select` cannot choose it, so
it is a no-op in a schedule. -/
def workerStep (switchMode : SwitchMode) (fileType : String) (e : Event)
    (s : WorkerState) : StepResult :=
  match e with
  | .record =>
      match s.queue with
      | [] => StepResult.running s
      | r :: rest =>
          match r.encodeResult with
          | Except.ok line =>
              StepResult.running { s with queue := rest, buf := s.buf ++ [line] }
          | Except.error msg =>
              StepResult.running
                { s with queue := rest,
                         diagnostics := s.diagnostics ++ ["log failed: " ++ msg] }
  | .flushTick => StepResult.running (flushState s)
  | .rotationDeadline =>
      match switchFile switchMode fileType s with
      | Except.error e => StepResult.panicked e s
      | Except.ok s1 => StepResult.running s1
  | .closeSignal =>
      if s.closeChanClosed then StepResult.stopped s else StepResult.running s

/-! ## Shutdown cleanup and whole runs -/

/-- The report of the goroutine's deferred block (jsonlog.go lines 88-93):
`flushTicker.Stop(); logger.out.Flush(); logger.file.Close();
logger.closeWait.Done()`.  The error values returned by `Flush` and
`Close` are discarded by the code — nothing reaches the diagnostic sink —
and `Done` is reached unconditionally, releasing `Close()`. -/
structure CleanupResult where
  state : WorkerState
  tickerStopped : Bool
  waitGroupDone : Bool
deriving DecidableEq, Repr

/-- The deferred shutdown block, parameterised by the error outcomes the
flush and close calls would report (`none` = success): on a flush error
the buffered bytes do not reach the file; either way the ticker is
stopped, the results are ignored, and the wait group is released. -/
def shutdownCleanup (s : WorkerState) (flushErr closeErr : Option String) :
    CleanupResult :=
  let s1 := match flushErr with
    | none => flushState s
    | some _ => s
  match closeErr with
  | _ => { state := s1, tickerStopped := true, waitGroupDone := true }

/-- Run the worker loop under a schedule of ready events.  `none` means
the schedule ended with the goroutine still looping — `Close()` has not
returned.  Otherwise the loop exited: on `return` the deferred cleanup
runs (with succeeding flush and close) and `closeWait.Done()` lets
`Close()` return with the resulting state; `panic` aborts the process. -/
def workerRun (switchMode : SwitchMode) (fileType : String) :
    List Event → WorkerState → Option (Except String WorkerState)
  | [], _ => none
  | e :: es, s =>
      match workerStep switchMode fileType e s with
      | StepResult.running s1 => workerRun switchMode fileType es s1
      | StepResult.stopped s1 =>
          some (Except.ok (shutdownCleanup s1 none none).state)
      | StepResult.panicked msg _ => some (Except.error msg)

/-! ## The public surface: `New`, `Log`, `Close` -/

/-- `New(dir, switchMode, fileType, compress)` (jsonlog.go lines 40-63),
uncompressed branch (`compress` only contributes through
`effectiveFileType`, applied by the caller of this model): stat/create the
base directory, build the handle with an empty 1000-slot channel and an
open close channel, and run the first `switchFile` synchronously so
construction fails fast. -/
def newL (fs : FS) (dir : String) (switchMode : SwitchMode) (fileType : String)
    (now : DateTime) : Except String WorkerState :=
  match fsEnsureDir fs dir with
  | Except.error e => Except.error e
  | Except.ok fs1 =>
      switchFile switchMode fileType
        { fs := fs1, dir := dir, fileName := none, buf := [], queue := [],
          closeChanClosed := false, diagnostics := [], now := now }

/-- `L.Log(r)` (jsonlog.go lines 184-186): a send on the buffered channel
`logChan`.  `some` = the send completed (record enqueued, no error is ever
produced); `none` = the channel is full and the caller blocks until the
worker frees a slot. -/
def logCall (s : WorkerState) (r : Rec) : Option WorkerState :=
  if s.queue.length < logChanCapacity then some { s with queue := s.queue ++ [r] }
  else none

/-- What a call to `L.Close` (jsonlog.go lines 178-181) does at the call
site. -/
inductive CloseOutcome where
  /-- `close(closeChan)` succeeded; `closeWait.Wait()` now blocks until the
  worker's deferred block calls `Done`. -/
  | closing (s : WorkerState)
  /-- the Go runtime panicked: `close` of an already-closed channel. -/
  | panicked (msg : String)
deriving DecidableEq, Repr

/-- `L.Close()`: `close(logger.closeChan)` then `logger.closeWait.Wait()`.
Closing an already-closed channel panics in Go. -/
def closeL (s : WorkerState) : CloseOutcome :=
  if s.closeChanClosed then CloseOutcome.panicked "close of closed channel"
  else CloseOutcome.closing { s with closeChanClosed := true }

/-- Two consecutive `Close()` calls on the same handle. -/
def doubleClose (s : WorkerState) : CloseOutcome :=
  match closeL s with
  | CloseOutcome.closing s1 => closeL s1
  | CloseOutcome.panicked msg => CloseOutcome.panicked msg

/-- One whole process lifetime within a single time bucket: `New`, the
producers submit records (all serializable, sent before `Close`), then
`Close`, under the schedule in which the worker drains the queue before
servicing the close signal.  Returns the filesystem the process leaves
behind. -/
def fullSession (fs : FS) (dir : String) (switchMode : SwitchMode)
    (fileType : String) (now : DateTime) (lines : List String) :
    Except String FS :=
  match newL fs dir switchMode fileType now with
  | Except.error e => Except.error e
  | Except.ok s =>
      let s1 := { s with queue := lines.map okRec, closeChanClosed := true }
      match workerRun switchMode fileType
          (List.replicate lines.length Event.record ++ [Event.closeSignal]) s1 with
      | some (Except.ok s2) => Except.ok s2.fs
      | some (Except.error e) => Except.error e
      | none => Except.error "close did not return"

/-! ## The compressed writer stack (jsonlog.go line 168)

With `compress` true, `switchFile` sets
`logger.out, _ = gzip.NewWriterLevel(bufio.NewWriter(logger.file), 9)`:
the gzip writer compresses into a `bufio.Writer` around the file, and no
handle to that inner `bufio.Writer` is retained anywhere.

Library semantics (compress/gzip, bufio): `gzip.Writer.Write` buffers
uncompressed data; `gzip.Writer.Flush` compresses what is pending and
writes those bytes to the underlying writer, but the stream is only
terminated (footer + size/checksum trailer) by `gzip.Writer.Close`, which
the code never calls; `bufio.Writer` holds written bytes until its own
`Flush`, which the code can never call (no handle).  Bytes are modelled as
opaque chunks of the gzip stream; the model assumes the compressed output
stays below the 4096-byte `bufio` buffer (true for the spec's scenarios),
so `bufio` never drains on its own. -/

inductive GzChunk where
  /-- a compressed block carrying these delimited units. -/
  | data (lines : List String)
  /-- the stream trailer written only by `gzip.Writer.Close`. -/
  | footer
deriving DecidableEq, Repr

structure CompressedWriter where
  /-- data written into the gzip layer, not yet compressed out. -/
  gzPending : List String
  /-- the inner `bufio.Writer` buffer — unreachable from the code. -/
  bufioBuf : List GzChunk
  /-- chunks actually written to the `os.File`. -/
  fileBytes : List GzChunk
deriving DecidableEq, Repr

/-- `logger.encoder.Encode(r)` against the compressed `out`. -/
def gzWrite (w : CompressedWriter) (line : String) : CompressedWriter :=
  { w with gzPending := w.gzPending ++ [line] }

/-- `logger.out.Flush()` on the gzip writer: emit the pending data as a
compressed chunk into the underlying `bufio.Writer`. -/
def gzFlush (w : CompressedWriter) : CompressedWriter :=
  match w.gzPending with
  | [] => w
  | p => { w with gzPending := [], bufioBuf := w.bufioBuf ++ [GzChunk.data p] }

/-- `bufio.Writer.Flush`: drain the buffer to the file.  The code never
reaches this operation after line 168 constructs the stack. -/
def bufioFlush (w : CompressedWriter) : CompressedWriter :=
  { w with bufioBuf := [], fileBytes := w.fileBytes ++ w.bufioBuf }

/-- `gzip.Writer.Close`: flush, then write the stream trailer.  The code
never calls it. -/
def gzClose (w : CompressedWriter) : CompressedWriter :=
  let w1 := gzFlush w
  { w1 with bufioBuf := w1.bufioBuf ++ [GzChunk.footer] }

/-- Decompressing a gzip file: defined exactly on complete streams — the
data chunks followed by the trailer — and yields the concatenated units.
A file missing the trailer (in particular an empty file) is not a valid
gzip stream. -/
def gunzip : List GzChunk → Option (List String)
  | [GzChunk.footer] => some []
  | GzChunk.data ls :: rest =>
      match gunzip rest with
      | some tail => some (ls ++ tail)
      | none => none
  | _ => none

/-- The compressed-mode life of one file, faithful to the worker: encode
each record into the gzip layer (any interleaved flush ticks only move
pending data into the unreachable `bufio` buffer, so they do not change
the outcome), then on shutdown run the deferred `logger.out.Flush()` and
`logger.file.Close()`.  Returns the bytes the file holds at the end:
whatever reached it — the `bufio` buffer's contents are lost when the file
is closed. -/
def compressedShutdownRun (lines : List String) : List GzChunk :=
  let w := lines.foldl gzWrite { gzPending := [], bufioBuf := [], fileBytes := [] }
  (gzFlush w).fileBytes

/-! ## Concrete instances used to exercise the model -/

/-- An empty, writable filesystem. -/
def demoFS : FS := { dirs := [], files := [], allowCreate := true }

/-- The instant of the spec's scenario: 2026-10-11, hour 10. -/
def demoDT : DateTime := { year := 2026, month := 10, day := 11, hour := 10 }

/-- A record that serializes to the unit `a1`. -/
def demoRec : Rec := okRec "a1"

/-- The handle state right after
`New("/tmp/x", SWITCH_BY_HOURS, ".log", false)` at `demoDT`. -/
def demoState : WorkerState :=
  { fs := { dirs := ["/tmp/x/2026-10-11/", "/tmp/x"],
            files := [("/tmp/x/2026-10-11/10.log", [])], allowCreate := true },
    dir := "/tmp/x", fileName := some "/tmp/x/2026-10-11/10.log",
    buf := [], queue := [], closeChanClosed := false, diagnostics := [],
    now := demoDT }

/-- The handle after `Log(demoRec)` completed and `Close()` was then
invoked: the record sits in the channel and `closeChan` is closed, with
`Close` blocked in `closeWait.Wait()`. -/
def c1StartState : WorkerState :=
  { demoState with queue := [demoRec], closeChanClosed := true }

/-- What the destination file holds once `Close()` has returned, when the
worker's `select` services the ready close signal first (a legal choice:
`select` picks among ready cases arbitrarily). -/
def c1FinalFileContents : Option (List String) :=
  match workerRun SwitchMode.byHours ".log" [Event.closeSignal] c1StartState with
  | some (Except.ok s) => fsLookup s.fs.files "/tmp/x/2026-10-11/10.log"
  | _ => none

/-- Same situation with two pending records, for the drain schedule. -/
def c1DrainState : WorkerState :=
  { demoState with queue := [okRec "a1", okRec "a2"], closeChanClosed := true }

/-- `demoState` one hour later with creation now denied by the OS: the
rotation deadline has fired and the new bucket's file cannot be created. -/
def demoRotateFailState : WorkerState :=
  { demoState with
    now := { year := 2026, month := 10, day := 11, hour := 11 },
    fs := { demoState.fs with allowCreate := false } }

/-! # Theorems -/

/-- Zero-padding really is two digits wide for the values day and hour
take. -/
theorem pad2_length : ∀ n, n < 100 → (pad2 n).length = 2 := by decide

/-- The demo state is exactly what the model's `New` constructs. -/
theorem newL_demo : newL demoFS "/tmp/x" SwitchMode.byHours ".log" demoDT
    = Except.ok demoState := by decide

/-- C3 (naming): at every instant the destination path is
`<base>/<YYYY-MM>/<DD><suffix>` under `BY_DAY` and
`<base>/<YYYY-MM-DD>/<HH><suffix>` under `BY_HOUR`, with day, hour and
month two-digit zero-padded, and with compression the `.gz` extension
follows the suffix. -/
theorem destination_path_naming (base suffix : String) (dt : DateTime)
    (compress : Bool) (hm : dt.month < 100) (hd : dt.day < 100)
    (hh : dt.hour < 100) :
    (switchFilePaths base SwitchMode.byDay (effectiveFileType suffix compress) dt).2
      = base ++ "/" ++ pad4 dt.year ++ "-" ++ pad2 dt.month ++ "/"
        ++ pad2 dt.day ++ suffix ++ (if compress then ".gz" else "")
    ∧ (switchFilePaths base SwitchMode.byHours (effectiveFileType suffix compress) dt).2
      = base ++ "/" ++ pad4 dt.year ++ "-" ++ pad2 dt.month ++ "-" ++ pad2 dt.day
        ++ "/" ++ pad2 dt.hour ++ suffix ++ (if compress then ".gz" else "")
    ∧ (pad2 dt.month).length = 2 ∧ (pad2 dt.day).length = 2
    ∧ (pad2 dt.hour).length = 2 := by
  refine ⟨?_, ?_, pad2_length _ hm, pad2_length _ hd, pad2_length _ hh⟩ <;>
    cases compress <;>
    simp [switchFilePaths, effectiveFileType, formatYearMonth, formatYearMonthDay,
      String.append_assoc]

/-- Witness for C3 at the scenario's instant with compression on. -/
theorem destination_path_naming_witness :
    (switchFilePaths "/tmp/x" SwitchMode.byDay (effectiveFileType ".log" true) demoDT).2
      = "/tmp/x" ++ "/" ++ pad4 demoDT.year ++ "-" ++ pad2 demoDT.month ++ "/"
        ++ pad2 demoDT.day ++ ".log" ++ (if true then ".gz" else "")
    ∧ (switchFilePaths "/tmp/x" SwitchMode.byHours (effectiveFileType ".log" true) demoDT).2
      = "/tmp/x" ++ "/" ++ pad4 demoDT.year ++ "-" ++ pad2 demoDT.month ++ "-"
        ++ pad2 demoDT.day ++ "/" ++ pad2 demoDT.hour ++ ".log"
        ++ (if true then ".gz" else "")
    ∧ (pad2 demoDT.month).length = 2 ∧ (pad2 demoDT.day).length = 2
    ∧ (pad2 demoDT.hour).length = 2 :=
  destination_path_naming "/tmp/x" ".log" demoDT true (by decide) (by decide)
    (by decide)

/-- C4 (rotation schedule): the first timer duration is exactly the time
from now to the next policy-aligned boundary — positive, at most one
period, and landing on a multiple of the period (next midnight for
`BY_DAY`, next top-of-hour for `BY_HOUR`) — and after a rotation fires the
timer is re-armed with exactly one full period. -/
theorem rotation_timer_wall_clock (m : SwitchMode) (now : Nat) :
    initialTimerDuration m now
      = (nextBoundaryAfter (period m) now : Int) - (now : Int)
    ∧ 0 < initialTimerDuration m now
    ∧ initialTimerDuration m now ≤ (period m : Int)
    ∧ now < nextBoundaryAfter (period m) now
    ∧ nextBoundaryAfter (period m) now ≤ now + period m
    ∧ nextBoundaryAfter (period m) now % period m = 0
    ∧ rearmDuration m = period m := by
  cases m <;>
    simp [initialTimerDuration, startOfDay, startOfHour, nextBoundaryAfter,
      period, secondsPerDay, secondsPerHour, rearmDuration] <;>
    omega

/-- C8 (submit semantics): a `Log` call enqueues and returns whenever the
1000-slot channel has free space, blocks (no enqueue) when it is full, and
has no error outcome at all. -/
theorem log_never_fails_blocks_when_full (s : WorkerState) (r : Rec) :
    (s.queue.length < logChanCapacity →
       logCall s r = some { s with queue := s.queue ++ [r] })
    ∧ (logChanCapacity ≤ s.queue.length → logCall s r = none)
    ∧ logChanCapacity = 1000 := by
  refine ⟨fun h => by simp [logCall, h], fun h => ?_, rfl⟩
  have h1 : ¬ s.queue.length < logChanCapacity := by omega
  simp [logCall, h1]

/-- Witness for C8: on the fresh handle the send completes immediately. -/
theorem log_never_fails_witness :
    logCall demoState demoRec = some { demoState with queue := [demoRec] } :=
  (log_never_fails_blocks_when_full demoState demoRec).1 (by decide)

/-- C10 (double close): a second `Close()` after the first closes an
already-closed channel, a Go runtime panic — not a no-op. -/
theorem double_close_panics (s : WorkerState) (h : s.closeChanClosed = false) :
    doubleClose s = CloseOutcome.panicked "close of closed channel" := by
  simp [doubleClose, closeL, h]

/-- Witness for C10 on the fresh handle. -/
theorem double_close_panics_witness :
    doubleClose demoState = CloseOutcome.panicked "close of closed channel" :=
  double_close_panics demoState rfl

/-- C5 (serialization failure non-fatal): when the record at the head of
the channel fails to serialize, the worker reports the failure to the
diagnostic sink, drops the record, and keeps looping; the resulting state
differs from the old one only in the consumed record and the new
diagnostic line — file, buffer and filesystem are untouched, so no other
record is affected. -/
theorem encode_failure_non_fatal (sm : SwitchMode) (ft : String)
    (s : WorkerState) (r : Rec) (rest : List Rec) (msg : String)
    (hq : s.queue = r :: rest) (he : r.encodeResult = Except.error msg) :
    workerStep sm ft Event.record s
      = StepResult.running
          { s with queue := rest,
                   diagnostics := s.diagnostics ++ ["log failed: " ++ msg] } := by
  simp [workerStep, hq, he]

/-- Witness for C5: a record whose serialization fails with message
`boom`, queued on the fresh handle. -/
theorem encode_failure_non_fatal_witness :
    workerStep SwitchMode.byHours ".log" Event.record
        { demoState with queue := [Rec.mk (Except.error "boom")] }
      = StepResult.running
          { demoState with queue := [], diagnostics := ["log failed: boom"] } :=
  encode_failure_non_fatal SwitchMode.byHours ".log"
    { demoState with queue := [Rec.mk (Except.error "boom")] }
    (Rec.mk (Except.error "boom")) [] "boom" rfl rfl

/-- C6 (rotation errors fatal): when `switchFile` fails at a rotation
deadline, the worker panics with that error instead of continuing. -/
theorem rotation_failure_panics (sm : SwitchMode) (ft : String)
    (s : WorkerState) (e : String) (hsf : switchFile sm ft s = Except.error e) :
    workerStep sm ft Event.rotationDeadline s = StepResult.panicked e s := by
  simp [workerStep, hsf]

/-- Witness for C6: the hour boundary has fired but the new bucket's file
cannot be created; the worker panics. -/
theorem rotation_failure_panics_witness :
    workerStep SwitchMode.byHours ".log" Event.rotationDeadline demoRotateFailState
      = StepResult.panicked ("open /tmp/x/2026-10-11/11.log: permission denied")
          demoRotateFailState :=
  rotation_failure_panics SwitchMode.byHours ".log" demoRotateFailState
    ("open /tmp/x/2026-10-11/11.log: permission denied") (by decide)

/-- `flushState` never touches the diagnostic sink. -/
theorem flushState_diagnostics (s : WorkerState) :
    (flushState s).diagnostics = s.diagnostics := by
  rcases h : s.fileName with _ | n <;> simp [flushState, h]

/-- C9 counterexample: the claim says a failing shutdown flush is surfaced
to the diagnostic sink; here the flush fails with an I/O error and the
sink is left exactly as it was (empty), though shutdown does complete. -/
theorem shutdown_error_not_surfaced :
    (shutdownCleanup demoState (some "flush: input/output error") none).state.diagnostics
        = demoState.diagnostics
    ∧ (shutdownCleanup demoState (some "flush: input/output error") none).waitGroupDone
        = true := by
  constructor <;> rfl

/-- C9 amended: shutdown is best-effort and always completes — the ticker
is stopped, the wait group is released so `Close()` returns, and a
succeeding flush writes the buffer out — but the error results of the
flush and close attempts are discarded, never surfaced to the diagnostic
sink. -/
theorem shutdown_cleanup_completes_silently (s : WorkerState)
    (flushErr closeErr : Option String) :
    (shutdownCleanup s flushErr closeErr).tickerStopped = true
    ∧ (shutdownCleanup s flushErr closeErr).waitGroupDone = true
    ∧ (shutdownCleanup s flushErr closeErr).state.diagnostics = s.diagnostics
    ∧ (shutdownCleanup s none closeErr).state = flushState s := by
  refine ⟨rfl, rfl, ?_, rfl⟩
  cases flushErr <;> simp [shutdownCleanup, flushState_diagnostics]

/-- `gzWrite` only feeds the gzip layer: the bytes on disk are untouched,
and the buffered data accumulates in order. -/
theorem foldl_gzWrite_spec (lines : List String) (w : CompressedWriter) :
    (lines.foldl gzWrite w).fileBytes = w.fileBytes
    ∧ (lines.foldl gzWrite w).bufioBuf = w.bufioBuf
    ∧ (lines.foldl gzWrite w).gzPending = w.gzPending ++ lines := by
  induction lines generalizing w with
  | nil => simp
  | cons l rest ih =>
      have h := ih (gzWrite w l)
      simpa [gzWrite, List.append_assoc] using h

/-- A gzip flush moves bytes into the unreachable `bufio` buffer only —
nothing reaches the file. -/
theorem gzFlush_fileBytes (w : CompressedWriter) :
    (gzFlush w).fileBytes = w.fileBytes := by
  rcases h : w.gzPending with _ | ⟨l, p⟩ <;> simp [gzFlush, h]

/-- C2 (compressed round-trip) fails on the code: with compression on, the
gzip writer wraps a `bufio.Writer` nobody retains a handle to, so the
deferred `out.Flush()` only moves compressed bytes into that unreachable
buffer and `gzip.Writer.Close` is never called; the destination file ends
up empty, which is not a decompressible gzip stream — in particular the
scenario's two records are lost, not recovered by decompressing. -/
theorem compressed_round_trip_fails (lines : List String) :
    compressedShutdownRun lines = []
    ∧ gunzip (compressedShutdownRun lines) = none
    ∧ gunzip (compressedShutdownRun ["a1", "a2"]) ≠ some ["a1", "a2"] := by
  have h : ∀ ls : List String, compressedShutdownRun ls = [] := by
    intro ls
    have h1 := (foldl_gzWrite_spec ls { gzPending := [], bufioBuf := [], fileBytes := [] }).1
    simp [compressedShutdownRun, gzFlush_fileBytes, h1]
  refine ⟨h lines, ?_, ?_⟩ <;> simp [h, gunzip]

/-- Had the shutdown path closed the gzip stream and flushed the inner
buffer (`gzip.Writer.Close` then `bufio.Writer.Flush`), decompression
would have recovered exactly the submitted records in order: the model's
codec round-trips; the loss is the code's, not the codec's. -/
theorem gz_round_trip_with_proper_close (lines : List String) :
    gunzip (bufioFlush (gzClose
        (lines.foldl gzWrite { gzPending := [], bufioBuf := [], fileBytes := [] }))).fileBytes
      = some lines := by
  obtain ⟨h1, h2, h3⟩ :=
    foldl_gzWrite_spec lines { gzPending := [], bufioBuf := [], fileBytes := [] }
  rcases hl : lines with _ | ⟨l, rest⟩ <;>
    simp [hl] at h1 h2 h3 <;>
    simp [gzClose, gzFlush, bufioFlush, gunzip, h1, h2, h3]

/-- Storing under a name makes it the binding `fsLookup` finds. -/
theorem fsLookup_fsStore (files : List (String × List String)) (name : String)
    (contents : List String) :
    fsLookup (fsStore files name contents) name = some contents := by
  induction files with
  | nil => simp [fsStore, fsLookup]
  | cons hd tl ih =>
      rcases hd with ⟨n, c⟩
      by_cases h : n = name <;> simp [fsStore, fsLookup, h, ih]

/-- Appending to a file with known contents extends them on the right. -/
theorem fsLookup_fsAppendLines (fs : FS) (name : String)
    (lines c : List String) (h : fsLookup fs.files name = some c) :
    fsLookup (fsAppendLines fs name lines).files name = some (c ++ lines) := by
  rcases lines with _ | ⟨l, rest⟩ <;> simp [fsAppendLines, h, fsLookup_fsStore]

/-- Appending file contents never changes the creation permission. -/
theorem fsAppendLines_allowCreate (fs : FS) (name : String)
    (lines : List String) :
    (fsAppendLines fs name lines).allowCreate = fs.allowCreate := by
  rcases lines with _ | ⟨l, rest⟩ <;>
    [rfl; (rcases h : fsLookup fs.files name with _ | c <;> simp [fsAppendLines, h])]

/-- `flushState` on a live writer appends the buffer to the open file. -/
theorem flushState_some (s : WorkerState) (n : String)
    (h : s.fileName = some n) :
    flushState s = { s with fs := fsAppendLines s.fs n s.buf, buf := [] } := by
  simp [flushState, h]

/-- Draining run: with the close signal already raised, a schedule that
services every queued (serializable) record before the close signal ends
with the worker stopped, the deferred flush/close done, and the records'
lines appended after whatever the buffer held. -/
theorem workerRun_drain (sm : SwitchMode) (ft : String) :
    ∀ (lines : List String) (s : WorkerState),
      s.queue = lines.map okRec → s.closeChanClosed = true →
      workerRun sm ft (List.replicate lines.length Event.record ++ [Event.closeSignal]) s
        = some (Except.ok (flushState { s with queue := [], buf := s.buf ++ lines })) := by
  intro lines
  induction lines with
  | nil =>
      intro s hq hc
      rcases s with ⟨fs, dir, fn, buf, queue, cc, diag, now⟩
      simp at hq hc
      subst hq hc
      simp [workerRun, workerStep, shutdownCleanup]
  | cons l rest ih =>
      intro s hq hc
      rcases s with ⟨fs, dir, fn, buf, queue, cc, diag, now⟩
      simp at hq hc
      subst hq hc
      rw [List.length_cons, List.replicate_succ]
      simp only [List.cons_append, workerRun, workerStep, okRec]
      have hrw : buf ++ l :: rest = (buf ++ [l]) ++ rest := by simp
      rw [hrw]
      exact ih { fs := fs, dir := dir, fileName := fn, buf := buf ++ [l],
                 queue := rest.map okRec, closeChanClosed := true,
                 diagnostics := diag, now := now } rfl rfl

/-- C1 counterexample: a record is submitted (`Log` completed, the record
sits in the channel), then `Close()` is invoked; the worker's `select`
services the ready close signal — a choice Go's `select` is free to make —
and returns without draining the channel, so after `Close()` returns the
destination file is empty even though the record serializes fine: the
claim that every record submitted before `Close()` is present afterwards
is false. -/
theorem close_loses_queued_record :
    c1FinalFileContents = some [] ∧ demoRec.encodeResult = Except.ok "a1"
      ∧ c1StartState.queue = [demoRec] :=
  ⟨rfl, rfl, rfl⟩

/-- C1 amended: `Close()` does wait for the worker to exit, flush and
release the file before returning, and every record the worker dequeues
before it services the close signal is present, in order, after `Close()`
returns; but records still queued when the close signal is serviced are
dropped, not drained. -/
theorem records_drained_before_close_are_written (sm : SwitchMode)
    (ft : String) (lines : List String) (s : WorkerState) (n : String)
    (c : List String) (hq : s.queue = lines.map okRec)
    (hc : s.closeChanClosed = true) (hf : s.fileName = some n)
    (hcont : fsLookup s.fs.files n = some c) :
    ∃ s2,
      workerRun sm ft (List.replicate lines.length Event.record ++ [Event.closeSignal]) s
        = some (Except.ok s2)
      ∧ fsLookup s2.fs.files n = some (c ++ (s.buf ++ lines)) := by
  refine ⟨_, workerRun_drain sm ft lines s hq hc, ?_⟩
  rw [flushState_some { s with queue := [], buf := s.buf ++ lines } n hf]
  exact fsLookup_fsAppendLines s.fs n (s.buf ++ lines) c hcont

/-- Witness for the amended C1: two records drained, both in the file once
`Close()` has returned. -/
theorem records_drained_before_close_witness :
    ∃ s2,
      workerRun SwitchMode.byHours ".log"
          (List.replicate (["a1", "a2"].length) Event.record ++ [Event.closeSignal])
          c1DrainState
        = some (Except.ok s2)
      ∧ fsLookup s2.fs.files "/tmp/x/2026-10-11/10.log"
          = some (([] : List String) ++ (c1DrainState.buf ++ ["a1", "a2"])) :=
  records_drained_before_close_are_written SwitchMode.byHours ".log" ["a1", "a2"]
    c1DrainState "/tmp/x/2026-10-11/10.log" [] rfl rfl rfl (by decide)

/-- A directory is ensured without touching the files or the creation
permission. -/
theorem fsEnsureDir_ok (fs : FS) (d : String) (hc : fs.allowCreate = true) :
    ∃ fs1, fsEnsureDir fs d = Except.ok fs1 ∧ fs1.files = fs.files
      ∧ fs1.allowCreate = true := by
  by_cases h : d ∈ fs.dirs
  · exact ⟨fs, by simp [fsEnsureDir, h], rfl, hc⟩
  · exact ⟨{ fs with dirs := d :: fs.dirs },
      by simp [fsEnsureDir, fsMkdir, h, hc], rfl, hc⟩

/-- Opening with the code's `O_WRONLY|O_CREATE|O_APPEND` flags preserves
whatever the file already held (creating it empty when absent): never a
truncation. -/
theorem fsOpenFile_append_ok (fs : FS) (n : String) (hc : fs.allowCreate = true) :
    ∃ fs1, fsOpenFile fs n switchFileOpenFlags = Except.ok fs1
      ∧ fsLookup fs1.files n = some ((fsLookup fs.files n).getD [])
      ∧ fs1.allowCreate = true := by
  rcases h : fsLookup fs.files n with _ | c
  · refine ⟨{ fs with files := fsStore fs.files n [] }, ?_, ?_, hc⟩
    · simp [fsOpenFile, h, hc, switchFileOpenFlags]
    · simp [fsLookup_fsStore, h]
  · refine ⟨{ fs with files := fsStore fs.files n c }, ?_, ?_, hc⟩
    · simp [fsOpenFile, h, switchFileOpenFlags]
    · simp [fsLookup_fsStore, h]

/-- On a writable filesystem `New` succeeds, leaving an empty buffer and
channel, the close channel open, and the bucket's file open-for-append
with its prior contents intact. -/
theorem newL_ok (fs : FS) (dir : String) (sm : SwitchMode) (ft : String)
    (dt : DateTime) (hc : fs.allowCreate = true) :
    ∃ s, newL fs dir sm ft dt = Except.ok s
      ∧ s.fileName = some (switchFilePaths dir sm ft dt).2
      ∧ s.buf = [] ∧ s.queue = [] ∧ s.closeChanClosed = false
      ∧ s.fs.allowCreate = true
      ∧ fsLookup s.fs.files (switchFilePaths dir sm ft dt).2
          = some ((fsLookup fs.files (switchFilePaths dir sm ft dt).2).getD []) := by
  obtain ⟨fs1, h1, hf1, hc1⟩ := fsEnsureDir_ok fs dir hc
  obtain ⟨fs2, h2, hf2, hc2⟩ :=
    fsEnsureDir_ok fs1 (switchFilePaths dir sm ft dt).1 hc1
  obtain ⟨fs3, h3, hl3, hc3⟩ :=
    fsOpenFile_append_ok fs2 (switchFilePaths dir sm ft dt).2 hc2
  refine ⟨{ fs := fs3, dir := dir,
            fileName := some (switchFilePaths dir sm ft dt).2, buf := [],
            queue := [], closeChanClosed := false, diagnostics := [], now := dt },
          ?_, rfl, rfl, rfl, rfl, hc3, ?_⟩
  · simp [newL, switchFile, h1, h2, h3, flushState]
  · rw [hl3, hf2, hf1]

/-- A whole drained session appends exactly its records' lines to the
bucket's file. -/
theorem fullSession_ok (fs : FS) (dir : String) (sm : SwitchMode)
    (ft : String) (dt : DateTime) (lines : List String)
    (hc : fs.allowCreate = true) :
    ∃ fs1, fullSession fs dir sm ft dt lines = Except.ok fs1
      ∧ fs1.allowCreate = true
      ∧ fsLookup fs1.files (switchFilePaths dir sm ft dt).2
          = some ((fsLookup fs.files (switchFilePaths dir sm ft dt).2).getD []
                   ++ lines) := by
  obtain ⟨s, hn, hfn, hbuf, hq, hcc, hca, hlook⟩ := newL_ok fs dir sm ft dt hc
  rcases s with ⟨sfs, sdir, sfn, sbuf, squeue, scc, sdiag, snow⟩
  simp only at hfn hbuf hq hcc hca hlook
  subst hfn hbuf hq hcc
  have hrun := workerRun_drain sm ft lines
    { fs := sfs, dir := sdir,
      fileName := some (switchFilePaths dir sm ft dt).2, buf := [],
      queue := lines.map okRec, closeChanClosed := true,
      diagnostics := sdiag, now := snow } rfl rfl
  refine ⟨fsAppendLines sfs (switchFilePaths dir sm ft dt).2 lines, ?_, ?_, ?_⟩
  · simp [fullSession, hn, hrun, flushState]
  · rw [fsAppendLines_allowCreate]; exact hca
  · exact fsLookup_fsAppendLines sfs (switchFilePaths dir sm ft dt).2 lines _ hlook

/-- C7 (append idempotence): the open call uses append-or-create — the
flag set contains `O_APPEND` and `O_CREATE` but not `O_TRUNC` — so two
consecutive instances over the same base directory within the same time
bucket leave a file holding both sessions' records in submission order,
after whatever the file held before. -/
theorem append_across_sessions (fs0 : FS) (dir ft : String) (sm : SwitchMode)
    (dt : DateTime) (l1 l2 : List String) (hc : fs0.allowCreate = true) :
    OpenFlag.O_APPEND ∈ switchFileOpenFlags
    ∧ OpenFlag.O_CREATE ∈ switchFileOpenFlags
    ∧ OpenFlag.O_TRUNC ∉ switchFileOpenFlags
    ∧ ∃ fs1 fs2,
        fullSession fs0 dir sm ft dt l1 = Except.ok fs1
        ∧ fullSession fs1 dir sm ft dt l2 = Except.ok fs2
        ∧ fsLookup fs2.files (switchFilePaths dir sm ft dt).2
            = some ((fsLookup fs0.files (switchFilePaths dir sm ft dt).2).getD []
                     ++ l1 ++ l2) := by
  obtain ⟨fs1, h1, hc1, hl1⟩ := fullSession_ok fs0 dir sm ft dt l1 hc
  obtain ⟨fs2, h2, hc2, hl2⟩ := fullSession_ok fs1 dir sm ft dt l2 hc1
  rw [hl1] at hl2
  refine ⟨by decide, by decide, by decide, fs1, fs2, h1, h2, ?_⟩
  simpa using hl2

/-- Witness for C7: two one-record sessions over the same bucket; the file
ends with both records in order. -/
theorem append_across_sessions_witness :
    OpenFlag.O_APPEND ∈ switchFileOpenFlags
    ∧ OpenFlag.O_CREATE ∈ switchFileOpenFlags
    ∧ OpenFlag.O_TRUNC ∉ switchFileOpenFlags
    ∧ ∃ fs1 fs2,
        fullSession demoFS "/tmp/x" SwitchMode.byHours ".log" demoDT ["a1"]
          = Except.ok fs1
        ∧ fullSession fs1 "/tmp/x" SwitchMode.byHours ".log" demoDT ["b1"]
          = Except.ok fs2
        ∧ fsLookup fs2.files
              (switchFilePaths "/tmp/x" SwitchMode.byHours ".log" demoDT).2
            = some ((fsLookup demoFS.files
                (switchFilePaths "/tmp/x" SwitchMode.byHours ".log" demoDT).2).getD []
                 ++ ["a1"] ++ ["b1"]) :=
  append_across_sessions demoFS "/tmp/x" ".log" SwitchMode.byHours demoDT
    ["a1"] ["b1"] rfl

end Jsonlog
